import Mathlib

/-!
Verification development for the HPC-cluster telemetry dashboard
(`week3/processed_logs.py` and `week3/streamlit_processed.py`).

The scripts operate on a pandas DataFrame whose rows are telemetry
snapshots.  We embed a DataFrame as a `List Row`; the vectorized
column arithmetic of pandas (element-wise operations on aligned
columns) is embedded as `List.zipWith` over the projected columns.
Numeric cell values are modelled as rationals; pandas' element-wise
division by zero raises no exception and instead produces a
non-finite sentinel (NaN or an infinity) that all later element-wise
arithmetic propagates — the sentinel is modelled as `none` in an
`Option ℚ` cell.
-/

namespace HPC

/-- One instant in time, as pandas exposes it to this program: the calendar
accessors (`.year`, `.month`, `.day` of a `DatetimeIndex`) together with the
absolute position on the time axis measured in hours, which is what
timestamp subtraction converted to hours yields.  No claim below needs the
calendar fields and the absolute position to be mutually coherent, so they
are carried as independent fields. -/
structure Timestamp where
  year : ℕ
  month : ℕ
  day : ℕ
  absHours : ℚ
deriving DecidableEq, Repr

/-- One telemetry snapshot row, with the raw columns the scripts read
(`timestamp`, `cpu_percent`, `cpu_used`, node-state counts, job-state
counts).  pandas holds the counts as numeric columns, so all numeric
cells are modelled as rationals. -/
structure Row where
  timestamp : Timestamp
  cpu_percent : ℚ
  cpu_used : ℚ
  nodes_running : ℚ
  nodes_total : ℚ
  nodes_offline : ℚ
  nodes_down : ℚ
  nodes_idle : ℚ
  jobs_running : ℚ
  jobs_queued : ℚ
  jobs_held : ℚ
  jobs_exiting : ℚ
deriving DecidableEq, Repr

/-- Element-wise pandas division.  Dividing by zero raises no exception: it
produces a non-finite sentinel value (NaN when the numerator is zero, an
infinity otherwise) which every subsequent element-wise operation
propagates.  The sentinel is modelled as `none`. -/
def pdDiv (a b : ℚ) : Option ℚ :=
  if b = 0 then none else some (a / b)

/-- Column `node_utilization` of `processed_logs.py` line 34:
`(full_df["nodes_running"] / full_df["nodes_total"]) * 100`,
an element-wise division of two columns followed by an element-wise
scaling by 100 (which propagates the division sentinel). -/
def node_utilization_col (l : List Row) : List (Option ℚ) :=
  List.zipWith (fun a b => (pdDiv a b).map (fun q => q * 100))
    (l.map Row.nodes_running) (l.map Row.nodes_total)

/-- Column `cpu_idle_percent` of `processed_logs.py` line 35:
`100 - full_df["cpu_percent"]`. -/
def cpu_idle_percent_col (l : List Row) : List ℚ :=
  l.map (fun r => 100 - r.cpu_percent)

/-- Column `jobs_total` of `processed_logs.py` line 36: the element-wise sum
`jobs_running + jobs_queued + jobs_held + jobs_exiting` of four columns. -/
def jobs_total_col (l : List Row) : List ℚ :=
  List.zipWith (fun a b => a + b)
    (List.zipWith (fun a b => a + b)
      (List.zipWith (fun a b => a + b)
        (l.map Row.jobs_running) (l.map Row.jobs_queued))
      (l.map Row.jobs_held))
    (l.map Row.jobs_exiting)

/-- Column `efficiency` of `streamlit_processed.py` line 72:
`(df["cpu_percent"] * df["node_utilization"]) / 100.0`, element-wise over
the cpu column and the (sentinel-carrying) utilization column.  A sentinel
in `node_utilization` propagates into `efficiency`. -/
def efficiency_col (l : List Row) : List (Option ℚ) :=
  List.zipWith (fun c u => u.map (fun q => c * q / 100))
    (l.map Row.cpu_percent) (node_utilization_col l)

/-- `DOWNSAMPLE_POINTS` of `streamlit_processed.py` line 12. -/
def DOWNSAMPLE_POINTS : ℕ := 1000

/-- The index grid `np.linspace(0, n - 1, num = m, dtype = int)` of
`streamlit_processed.py` line 64: `m` evenly spaced points from `0` to
`n - 1` inclusive, truncated to integers.  In exact arithmetic point `i` is
`i * (n - 1) / (m - 1)` and truncation of a non-negative value is the floor,
i.e. natural division (for `m = 1` numpy returns just the start point `0`,
which natural division by `m - 1 = 0` also yields; float rounding could at
most perturb interior grid points, never the count or the two endpoints,
which numpy pins exactly). -/
def linspace_int (n m : ℕ) : List ℕ :=
  (List.range m).map (fun i => i * (n - 1) / (m - 1))

/-- `downsample_df` of `streamlit_processed.py` lines 58-65: return the
frame unchanged when it has at most `max_points` rows, otherwise take the
rows at the `linspace_int` index grid (`df.iloc[idx]`; every grid index is
below the length, so the fallback default of `getD` is never reached). -/
def downsample_df {α : Type} [Inhabited α] (l : List α) (max_points : ℕ) : List α :=
  if l.length ≤ max_points then l
  else (linspace_int l.length max_points).map (fun i => l.getD i default)

/-- `safe_last_two` of `streamlit_processed.py` lines 75-82: last and
second-to-last value of a column, `(0, 0)` on an empty column and the
single value twice on a one-row column (`iloc[-1]` is index `length - 1`,
`iloc[-2]` is index `length - 2`). -/
def safe_last_two (s : List ℚ) : ℚ × ℚ :=
  if s.length = 0 then (0, 0)
  else if s.length = 1 then (s.getD (s.length - 1) 0, s.getD (s.length - 1) 0)
  else (s.getD (s.length - 1) 0, s.getD (s.length - 2) 0)

/-- Rounding to the nearest integer with ties to even, the rounding used by
Python float formatting with one decimal digit. -/
def halfEven (q : ℚ) : ℤ :=
  if q - ⌊q⌋ < 1/2 then ⌊q⌋
  else if q - ⌊q⌋ > 1/2 then ⌊q⌋ + 1
  else if ⌊q⌋ % 2 = 0 then ⌊q⌋ else ⌊q⌋ + 1

/-- Python's format specifier `+.1f`: an explicit sign followed by the value
rounded to one decimal digit. -/
def fmt_signed_1f (q : ℚ) : String :=
  let r : ℤ := halfEven (q * 10)
  (if r < 0 then "-" else "+") ++ toString (r.natAbs / 10) ++ "." ++ toString (r.natAbs % 10)

/-- The percent-change string of `streamlit_processed.py` line 207 (and the
identical lines 212, 217, 222): `f"{x:+.1f}%"`. -/
def pct_str (q : ℚ) : String :=
  fmt_signed_1f q ++ "%"

/-- The delta computation the dashboard performs per metric
(`streamlit_processed.py` lines 205-207 and the identical blocks below it):
current value, difference to the previous value, and the percent-change
string, which is the literal `"+0.0%"` whenever the previous value is
zero. -/
def delta_calc (s : List ℚ) : ℚ × ℚ × String :=
  let lp := safe_last_two s
  let d : ℚ := lp.1 - lp.2
  (lp.1, d, if lp.2 ≠ 0 then pct_str (d / lp.2 * 100) else "+0.0%")

/-- The optional year/month/day time filter of the sidebar; `none` is the
`"All"` choice, under which no predicate is applied for that field.  The
three fields are independent at the data layer: any combination can be
supplied. -/
structure TimeFilter where
  year : Option ℕ
  month : Option ℕ
  day : Option ℕ
deriving DecidableEq, Repr

/-- The boolean mask of `streamlit_processed.py` lines 176-182, per row: it
starts all-true and conjoins one calendar-equality predicate for each
supplied filter field, each `if` being independent of the others. -/
def rowMask (f : TimeFilter) (t : Timestamp) : Bool :=
  let m := true
  let m := match f.year with
    | none => m
    | some y => m && decide (t.year = y)
  let m := match f.month with
    | none => m
    | some mo => m && decide (t.month = mo)
  match f.day with
  | none => m
  | some d => m && decide (t.day = d)

/-- `filtered_df = df.loc[mask]` of `streamlit_processed.py` line 184: the
rows whose mask entry is true, in their original order.  When nothing
matches this is the empty frame, not an error. -/
def filtered_df (f : TimeFilter) (l : List Row) : List Row :=
  l.filter (fun r => rowMask f r.timestamp)

/-- A dataframe as the dashboard holds it after load: its rows, plus the
`efficiency` column once `compute_efficiency` has assigned it (`none` while
the column is absent). -/
structure Frame where
  rows : List Row
  efficiency : Option (List (Option ℚ))
deriving DecidableEq, Repr

/-- `compute_efficiency` of `streamlit_processed.py` lines 68-73:
`df.assign(efficiency = ...)` builds and returns a new frame carrying the
extra column — the source comments "avoid modifying original by returning
an assigned copy", and `DataFrame.assign` is documented to return a new
object.  (The guard that both input columns exist is vacuous here: the
`Row` type always carries them.) -/
def compute_efficiency (fr : Frame) : Frame :=
  { rows := fr.rows, efficiency := some (efficiency_col fr.rows) }

/-- The bindings the dashboard script holds at lines 176-190: the loaded
parent frame `df` (no `efficiency` column yet) and the `filtered_df`
binding derived from it. -/
structure Env where
  df : List Row
  filtered : Frame
deriving DecidableEq, Repr

/-- Line 184, `filtered_df = df.loc[mask]`, as a state step: `.loc` with a
boolean mask returns a new object holding the selected rows; the binding
`filtered` is replaced, the parent `df` is not written. -/
def run_filter_stage (f : TimeFilter) (e : Env) : Env :=
  { e with filtered := { rows := filtered_df f e.df, efficiency := none } }

/-- Line 190, `filtered_df = compute_efficiency(filtered_df)`, as a state
step: the `filtered` binding is replaced by the assigned copy; the parent
`df` is not written. -/
def run_efficiency_stage (e : Env) : Env :=
  { e with filtered := compute_efficiency e.filtered }

/-- Descriptive statistics of one numeric column, after
`DataFrame.describe()` as called in `processed_logs.py` lines 39-46: the
row count plus the aggregate values, each of which pandas reports as a NaN
placeholder (modelled `none`) on an empty column instead of failing. -/
structure SummaryStats where
  count : ℕ
  mean : Option ℚ
  min : Option ℚ
  max : Option ℚ
deriving DecidableEq, Repr

/-- Modelled from the spec: the summary-statistics component of the
time-window query engine (spec §4.3, `SummaryStats`) is exercised in the
repository through `DataFrame.describe()` (`processed_logs.py` lines
39-46), whose per-column count/mean/min/max semantics this follows; on an
empty column the count is `0` and every aggregate is the undefined
placeholder, and no exception is raised. -/
def describe_col (s : List ℚ) : SummaryStats :=
  { count := s.length
  , mean := if s.length = 0 then none else some (s.sum / (s.length : ℚ))
  , min := match s with
    | [] => none
    | x :: xs => some (xs.foldl Min.min x)
  , max := match s with
    | [] => none
    | x :: xs => some (xs.foldl Max.max x) }

/-- Modelled from the spec: no file under `src/` computes `time_diff_hours`
(spec §3, §4.2); the spec defines it as the gap in hours to the previous
row in sorted order, with the first row of the series defined as `0`. -/
def time_diff_hours : List Row → List ℚ
  | [] => []
  | r :: rs =>
    0 :: List.zipWith
      (fun cur prev => cur.timestamp.absHours - prev.timestamp.absHours)
      rs (r :: rs)

/-- Modelled from the spec: no file under `src/` computes `core_hours`
(spec §3); it is the element-wise product `cpu_used * time_diff_hours`. -/
def core_hours (l : List Row) : List ℚ :=
  List.zipWith (fun r d => r.cpu_used * d) l (time_diff_hours l)

/-- Modelled from the spec: no file under `src/` computes `wait_time`
(spec §3); it is the element-wise product `jobs_queued * time_diff_hours`. -/
def wait_time (l : List Row) : List ℚ :=
  List.zipWith (fun r d => r.jobs_queued * d) l (time_diff_hours l)

/-- Sample timestamps and rows used by the concrete witnesses below; the
row values follow the end-to-end scenario of spec §8. -/
def ts0 : Timestamp := { year := 2024, month := 1, day := 1, absHours := 0 }

def ts1 : Timestamp := { year := 2024, month := 1, day := 2, absHours := 25 }

def ts2 : Timestamp := { year := 2024, month := 1, day := 2, absHours := 27 }

def sampleRow0 : Row :=
  { timestamp := ts0, cpu_percent := 50, cpu_used := 4
  , nodes_running := 8, nodes_total := 10
  , nodes_offline := 0, nodes_down := 0, nodes_idle := 2
  , jobs_running := 3, jobs_queued := 2, jobs_held := 0, jobs_exiting := 0 }

def sampleRow1 : Row :=
  { timestamp := ts1, cpu_percent := 80, cpu_used := 7
  , nodes_running := 9, nodes_total := 10
  , nodes_offline := 0, nodes_down := 0, nodes_idle := 1
  , jobs_running := 4, jobs_queued := 1, jobs_held := 0, jobs_exiting := 0 }

def sampleRow2 : Row :=
  { timestamp := ts2, cpu_percent := 60, cpu_used := 5
  , nodes_running := 7, nodes_total := 10
  , nodes_offline := 1, nodes_down := 0, nodes_idle := 2
  , jobs_running := 2, jobs_queued := 3, jobs_held := 1, jobs_exiting := 0 }

/-- A row whose `nodes_total` is zero, for the division-by-zero witness. -/
def sampleRowZ : Row :=
  { timestamp := ts1, cpu_percent := 50, cpu_used := 4
  , nodes_running := 8, nodes_total := 0
  , nodes_offline := 0, nodes_down := 0, nodes_idle := 2
  , jobs_running := 3, jobs_queued := 2, jobs_held := 0, jobs_exiting := 0 }

/-! Helper lemmas connecting the column-wise (vectorized) computations to
their per-row values. -/

lemma zipWith_map_same {α β γ δ : Type} (f : β → γ → δ) (g : α → β) (h : α → γ) :
    ∀ l : List α, List.zipWith f (l.map g) (l.map h) = l.map fun a => f (g a) (h a) := by
  intro l
  induction l with
  | nil => rfl
  | cons x xs ih => simp [ih]

lemma getElem?_zipWith {α β γ : Type} (f : α → β → γ) :
    ∀ (l₁ : List α) (l₂ : List β) (i : ℕ),
      (List.zipWith f l₁ l₂)[i]? = (l₁[i]?).bind fun a => (l₂[i]?).map (f a) := by
  intro l₁
  induction l₁ with
  | nil => intro l₂ i; simp
  | cons x xs ih =>
    intro l₂ i
    cases l₂ with
    | nil => simp
    | cons y ys =>
      cases i with
      | zero => simp
      | succ n => simpa using ih ys n

lemma getElem?_zipWith_same {α β γ δ : Type} (f : β → γ → δ) (g : α → β) (h : α → γ)
    (l : List α) (i : ℕ) (r : α) (hi : l[i]? = some r) :
    (List.zipWith f (l.map g) (l.map h))[i]? = some (f (g r) (h r)) := by
  rw [zipWith_map_same]
  simp [hi]

lemma node_utilization_col_eq (l : List Row) :
    node_utilization_col l
      = l.map fun r => (pdDiv r.nodes_running r.nodes_total).map fun q => q * 100 := by
  simp only [node_utilization_col]
  exact zipWith_map_same _ _ _ l

lemma jobs_total_col_eq (l : List Row) :
    jobs_total_col l
      = l.map fun r => r.jobs_running + r.jobs_queued + r.jobs_held + r.jobs_exiting := by
  simp only [jobs_total_col]
  rw [zipWith_map_same, zipWith_map_same, zipWith_map_same]

lemma efficiency_col_eq (l : List Row) :
    efficiency_col l
      = l.map fun r => (pdDiv r.nodes_running r.nodes_total).map
          fun q => r.cpu_percent * (q * 100) / 100 := by
  simp only [efficiency_col, node_utilization_col_eq]
  rw [zipWith_map_same]
  refine List.map_congr_left fun a _ => ?_
  cases pdDiv a.nodes_running a.nodes_total <;> simp

lemma pct_str_zero : pct_str 0 = "+0.0%" := by
  have h1 : halfEven ((0 : ℚ) * 10) = 0 := by norm_num [halfEven]
  simp only [pct_str, fmt_signed_1f, h1]
  decide

lemma linspace_int_length (n m : ℕ) : (linspace_int n m).length = m := by
  simp [linspace_int]

lemma downsample_df_of_le {α : Type} [Inhabited α] (l : List α) (m : ℕ)
    (h : l.length ≤ m) : downsample_df l m = l := by
  simp [downsample_df, h]

lemma downsample_df_length {α : Type} [Inhabited α] (l : List α) (m : ℕ)
    (h : ¬ l.length ≤ m) : (downsample_df l m).length = m := by
  simp only [downsample_df, if_neg h]
  simp [linspace_int_length]

lemma rowMask_true_iff (f : TimeFilter) (t : Timestamp) :
    rowMask f t = true ↔
      (∀ y, f.year = some y → t.year = y) ∧
      (∀ mo, f.month = some mo → t.month = mo) ∧
      (∀ d, f.day = some d → t.day = d) := by
  obtain ⟨oy, om, od⟩ := f
  cases oy <;> cases om <;> cases od <;> simp [rowMask, and_assoc]

/-! The claims. -/

/-- Claim C1: for every row of the input, the derivation computes the
per-row metrics with no cross-row dependency — the value at index `i` of
each derived column is determined by row `i` alone, by the formulas
`node_utilization = nodes_running / nodes_total * 100` (with the sentinel
when the denominator is zero), `cpu_idle_percent = 100 - cpu_percent`,
`jobs_total = jobs_running + jobs_queued + jobs_held + jobs_exiting`, and
`efficiency = cpu_percent * node_utilization / 100`. -/
theorem C1_per_row_metrics (l : List Row) (i : ℕ) (r : Row)
    (hi : l[i]? = some r) :
    (cpu_idle_percent_col l)[i]? = some (100 - r.cpu_percent) ∧
    (jobs_total_col l)[i]?
      = some (r.jobs_running + r.jobs_queued + r.jobs_held + r.jobs_exiting) ∧
    (r.nodes_total = 0 → (node_utilization_col l)[i]? = some none) ∧
    (r.nodes_total ≠ 0 →
      (node_utilization_col l)[i]?
        = some (some (r.nodes_running / r.nodes_total * 100)) ∧
      (efficiency_col l)[i]?
        = some (some (r.cpu_percent * (r.nodes_running / r.nodes_total * 100) / 100))) := by
  refine ⟨?_, ?_, ?_, ?_⟩
  · simp [cpu_idle_percent_col, hi]
  · simp [jobs_total_col_eq, hi]
  · intro h0
    simp [node_utilization_col_eq, hi, pdDiv, h0]
  · intro hne
    constructor
    · simp [node_utilization_col_eq, hi, pdDiv, hne]
    · simp [efficiency_col_eq, hi, pdDiv, hne]

/-- Witness for C1, at the first scenario row of spec §8
(cpu 50, 8 of 10 nodes running). -/
theorem C1_per_row_metrics_witness :
    (cpu_idle_percent_col [sampleRow0])[0]? = some (100 - sampleRow0.cpu_percent) ∧
    (node_utilization_col [sampleRow0])[0]?
      = some (some (sampleRow0.nodes_running / sampleRow0.nodes_total * 100)) := by
  refine ⟨(C1_per_row_metrics [sampleRow0] 0 sampleRow0 rfl).1,
    ((C1_per_row_metrics [sampleRow0] 0 sampleRow0 rfl).2.2.2 ?_).1⟩
  norm_num [sampleRow0]

/-- Claim C2: the order-dependent metrics — every series starts with
`time_diff_hours = 0`, each later row's value is its gap in hours to the
previous row, `core_hours` and `wait_time` are the row-wise products with
`cpu_used` and `jobs_queued`, and on a time-filtered subseries the metrics
are recomputed from the subseries' own first row, whose value is `0`. -/
theorem C2_order_dependent_metrics :
    (∀ (r : Row) (rs : List Row), (time_diff_hours (r :: rs))[0]? = some 0) ∧
    (∀ (l : List Row) (i : ℕ) (a b : Row),
      l[i]? = some a → l[i + 1]? = some b →
      (time_diff_hours l)[i + 1]?
        = some (b.timestamp.absHours - a.timestamp.absHours)) ∧
    (∀ (l : List Row) (i : ℕ) (r : Row) (d : ℚ),
      l[i]? = some r → (time_diff_hours l)[i]? = some d →
      (core_hours l)[i]? = some (r.cpu_used * d) ∧
      (wait_time l)[i]? = some (r.jobs_queued * d)) ∧
    (∀ (f : TimeFilter) (l : List Row) (r : Row) (rs : List Row),
      filtered_df f l = r :: rs →
      (time_diff_hours (filtered_df f l))[0]? = some 0) := by
  refine ⟨fun r rs => by simp [time_diff_hours], ?_, ?_, ?_⟩
  · intro l i a b ha hb
    cases l with
    | nil => simp at ha
    | cons x xs =>
      have hxs : xs[i]? = some b := by simpa using hb
      simp [time_diff_hours, getElem?_zipWith, hxs, ha]
  · intro l i r d hr hd
    constructor
    · simp [core_hours, getElem?_zipWith, hr, hd]
    · simp [wait_time, getElem?_zipWith, hr, hd]
  · intro f l r rs h
    rw [h]
    simp [time_diff_hours]

/-- Witness for C2: the day-2 filter drops `sampleRow0`; the filtered
subseries recomputes its first `time_diff_hours` as `0`, not as the
25-hour gap to the dropped predecessor. -/
theorem C2_order_dependent_metrics_witness :
    (time_diff_hours (filtered_df { year := none, month := none, day := some 2 }
      [sampleRow0, sampleRow1, sampleRow2]))[0]? = some 0 :=
  C2_order_dependent_metrics.2.2.2
    { year := none, month := none, day := some 2 }
    [sampleRow0, sampleRow1, sampleRow2] sampleRow1 [sampleRow2] rfl

/-- Claim C4, counterexample: the claim as stated fails at `max_points = 1`.
With series `[10, 20]` the length exceeds `max_points`, the result `[10]`
does have `max_points` rows and starts with the first element, but its last
element is not the original's last element (numpy's one-point grid holds
only index 0). -/
theorem C4_downsample_counterexample :
    ¬ (([10, 20] : List ℕ).length ≤ 1) ∧
    (downsample_df ([10, 20] : List ℕ) 1).length = 1 ∧
    (downsample_df ([10, 20] : List ℕ) 1).getLast?
      ≠ (([10, 20] : List ℕ)).getLast? := by
  decide

/-- Claim C4 (amended): if `len(s) ≤ max_points` the series is returned
unchanged; otherwise the result has exactly `max_points` rows and its first
element equals the original's first, and when moreover `max_points ≥ 2` its
last element equals the original's last. -/
theorem C4_downsample_amended {α : Type} [Inhabited α] (s : List α) (m : ℕ) :
    (s.length ≤ m → downsample_df s m = s) ∧
    (1 ≤ m → m < s.length →
      (downsample_df s m).length = m ∧ (downsample_df s m).head? = s.head?) ∧
    (2 ≤ m → m < s.length → (downsample_df s m).getLast? = s.getLast?) := by
  refine ⟨downsample_df_of_le s m, ?_, ?_⟩
  · intro h1 h2
    have hnot : ¬ s.length ≤ m := not_le.mpr h2
    refine ⟨downsample_df_length s m hnot, ?_⟩
    obtain ⟨k, rfl⟩ : ∃ k, m = k + 1 := ⟨m - 1, by omega⟩
    simp only [downsample_df, if_neg hnot]
    rw [List.head?_map]
    have hh : (linspace_int s.length (k + 1)).head? = some 0 := by
      simp [linspace_int, List.range_succ_eq_map]
    rw [hh]
    cases s with
    | nil => simp at h2
    | cons a as => rfl
  · intro h2 hlt
    have hnot : ¬ s.length ≤ m := not_le.mpr hlt
    simp only [downsample_df, if_neg hnot]
    rw [List.getLast?_map]
    have hr : (linspace_int s.length m).getLast? = some (s.length - 1) := by
      obtain ⟨k, rfl⟩ : ∃ k, m = k + 1 := ⟨m - 1, by omega⟩
      have hk : 0 < k := by omega
      simp only [linspace_int, List.range_succ, List.map_append, List.map_cons,
        List.map_nil]
      rw [List.getLast?_concat]
      congr 1
      simp only [Nat.add_sub_cancel]
      exact Nat.mul_div_cancel_left _ hk
    rw [hr]
    have hlen : s.length - 1 < s.length := by omega
    obtain ⟨x, hx⟩ : ∃ x, s[s.length - 1]? = some x := by
      rw [List.getElem?_eq_getElem hlen]
      exact ⟨_, rfl⟩
    rw [List.getLast?_eq_getElem?]
    simp [List.getD_eq_getElem?_getD, hx]

/-- Witness for the amended C4, at a length-3 series kept whole and a
length-5 series cut to 2 points. -/
theorem C4_downsample_amended_witness :
    downsample_df ([1, 2, 3] : List ℕ) 3 = [1, 2, 3] ∧
    (downsample_df ([1, 2, 3, 4, 5] : List ℕ) 2).length = 2 ∧
    (downsample_df ([1, 2, 3, 4, 5] : List ℕ) 2).head?
      = ([1, 2, 3, 4, 5] : List ℕ).head? ∧
    (downsample_df ([1, 2, 3, 4, 5] : List ℕ) 2).getLast?
      = ([1, 2, 3, 4, 5] : List ℕ).getLast? :=
  ⟨(C4_downsample_amended [1, 2, 3] 3).1 (by decide),
    ((C4_downsample_amended [1, 2, 3, 4, 5] 2).2.1 (by decide) (by decide)).1,
    ((C4_downsample_amended [1, 2, 3, 4, 5] 2).2.1 (by decide) (by decide)).2,
    (C4_downsample_amended [1, 2, 3, 4, 5] 2).2.2 (by decide) (by decide)⟩

/-- Claim C5, counterexample: on the empty series the delta calculation
returns the percent-change string `"+0.0%"` (the literal the source uses),
not `"0%"` as the claim states. -/
theorem C5_delta_counterexample :
    delta_calc [] ≠ (0, 0, "0%") ∧ delta_calc [] = (0, 0, "+0.0%") := by
  have h2 : delta_calc [] = (0, 0, "+0.0%") := by
    simp [delta_calc, safe_last_two]
  refine ⟨?_, h2⟩
  intro h
  rw [h2] at h
  have h3 : ("+0.0%" : String) = "0%" := congrArg (fun p => p.2.2) h
  exact absurd h3 (by decide)

/-- Claim C5 (amended): the delta calculation returns `(0, 0, "+0.0%")` on
the empty series; on a single-row series it returns the row's value, a zero
delta and `"+0.0%"`; and whenever the second-to-last value is `0` the
percent-change string is `"+0.0%"` regardless of the current value. -/
theorem C5_delta_amended :
    delta_calc [] = (0, 0, "+0.0%") ∧
    (∀ v : ℚ, delta_calc [v] = (v, 0, "+0.0%")) ∧
    (∀ s : List ℚ, 2 ≤ s.length → s.getD (s.length - 2) 0 = 0 →
      (delta_calc s).2.2 = "+0.0%") := by
  refine ⟨by simp [delta_calc, safe_last_two], ?_, ?_⟩
  · intro v
    by_cases hv : v = 0
    · subst hv
      simp [delta_calc, safe_last_two]
    · simp [delta_calc, safe_last_two, hv, pct_str_zero]
  · intro s h2 h0
    have hn0 : ¬ s.length = 0 := by omega
    have hn1 : ¬ s.length = 1 := by omega
    have hs : safe_last_two s = (s.getD (s.length - 1) 0, s.getD (s.length - 2) 0) := by
      simp only [safe_last_two, if_neg hn0, if_neg hn1]
    simp only [delta_calc, hs, h0]
    norm_num

/-- Witness for the amended C5: a three-row series whose second-to-last
value is `0` and whose current value is `7` still reports `"+0.0%"`. -/
theorem C5_delta_amended_witness :
    (delta_calc [5, 0, 7]).2.2 = "+0.0%" :=
  C5_delta_amended.2.2 [5, 0, 7] (by decide) rfl

/-- Claim C6: for every row whose `nodes_total` is `0`, `node_utilization`
is the propagated undefined sentinel (no exception is raised — the
computation is total), and the sentinel propagates into the downstream
`efficiency` column. -/
theorem C6_zero_total_sentinel (l : List Row) (i : ℕ) (r : Row)
    (hi : l[i]? = some r) (h0 : r.nodes_total = 0) :
    (node_utilization_col l)[i]? = some none ∧
    (efficiency_col l)[i]? = some none := by
  constructor
  · simp [node_utilization_col_eq, hi, pdDiv, h0]
  · simp [efficiency_col_eq, hi, pdDiv, h0]

/-- Witness for C6, at a concrete row with `nodes_total = 0`. -/
theorem C6_zero_total_sentinel_witness :
    (node_utilization_col [sampleRowZ])[0]? = some none ∧
    (efficiency_col [sampleRowZ])[0]? = some none :=
  C6_zero_total_sentinel [sampleRowZ] 0 sampleRowZ rfl rfl

/-- Claim C7: the time-window mask accepts any combination of the optional
year, month and day fields, and a row is kept if and only if it is a row of
the input and its timestamp's calendar fields equal every supplied filter
value, unspecified fields matching everything. -/
theorem C7_filter_any_combination (f : TimeFilter) (l : List Row) (r : Row) :
    r ∈ filtered_df f l ↔
      (r ∈ l ∧ (∀ y, f.year = some y → r.timestamp.year = y) ∧
        (∀ mo, f.month = some mo → r.timestamp.month = mo) ∧
        (∀ d, f.day = some d → r.timestamp.day = d)) := by
  simp [filtered_df, List.mem_filter, rowMask_true_iff]

/-- Witness for C7: a day-without-year filter (day = 2, no year, no month)
is accepted and keeps the matching row. -/
theorem C7_filter_any_combination_witness :
    sampleRow1 ∈ filtered_df { year := none, month := none, day := some 2 }
      [sampleRow0, sampleRow1, sampleRow2] := by
  apply (C7_filter_any_combination
    { year := none, month := none, day := some 2 }
    [sampleRow0, sampleRow1, sampleRow2] sampleRow1).mpr
  refine ⟨List.mem_cons_of_mem _ (List.mem_cons_self _ _), ?_, ?_, ?_⟩
  · intro y hy
    exact Option.noConfusion hy
  · intro mo hmo
    exact Option.noConfusion hmo
  · intro d hd
    cases hd
    rfl

/-- Claim C8: a filter matching no rows yields the empty subseries rather
than an error, and each downstream consumer returns its defined
zero/neutral value on the empty series: `safe_last_two` gives `(0, 0)`, the
delta calculation gives `(0, 0, "+0.0%")`, downsampling returns the empty
series unchanged, and the descriptive statistics report count `0` with
undefined-placeholder aggregates. -/
theorem C8_empty_filter_result (f : TimeFilter) (l : List Row)
    (h : ∀ r ∈ l, rowMask f r.timestamp = false) :
    filtered_df f l = [] ∧
    safe_last_two [] = (0, 0) ∧
    delta_calc [] = (0, 0, "+0.0%") ∧
    downsample_df ([] : List ℚ) DOWNSAMPLE_POINTS = [] ∧
    describe_col [] = { count := 0, mean := none, min := none, max := none } := by
  refine ⟨?_, rfl, by simp [delta_calc, safe_last_two], rfl, rfl⟩
  rw [filtered_df, List.filter_eq_nil]
  intro a ha
  simp [h a ha]

/-- Witness for C8: a year-1999 filter matches none of the 2024 rows and
returns the empty frame. -/
theorem C8_empty_filter_result_witness :
    filtered_df { year := some 1999, month := none, day := none }
      [sampleRow0, sampleRow1, sampleRow2] = [] := by
  refine (C8_empty_filter_result
    { year := some 1999, month := none, day := none }
    [sampleRow0, sampleRow1, sampleRow2] ?_).1
  intro r hr
  fin_cases hr <;> rfl

/-- Claim C9: filtering and the efficiency enrichment derive a new frame
and leave the parent series unchanged — after the filter stage and the
efficiency stage of the script, the parent `df` binding holds exactly the
rows it held before, and `compute_efficiency` returns a frame carrying its
input's rows unmodified. -/
theorem C9_no_parent_mutation (e : Env) (f : TimeFilter) :
    (run_filter_stage f e).df = e.df ∧
    (run_efficiency_stage (run_filter_stage f e)).df = e.df ∧
    (∀ fr : Frame, (compute_efficiency fr).rows = fr.rows) :=
  ⟨rfl, rfl, fun _ => rfl⟩

/-- Claim C10: downsampling is idempotent for every positive `max_points`:
the first application leaves at most `max_points` rows, so the second
application returns its input unchanged. -/
theorem C10_downsample_idempotent {α : Type} [Inhabited α] (s : List α)
    (m : ℕ) (hm : 0 < m) :
    downsample_df (downsample_df s m) m = downsample_df s m := by
  by_cases h : s.length ≤ m
  · rw [downsample_df_of_le s m h]
    exact downsample_df_of_le s m h
  · exact downsample_df_of_le _ m (le_of_eq (downsample_df_length s m h))

/-- Witness for C10, at a concrete three-row series cut to two points. -/
theorem C10_downsample_idempotent_witness :
    downsample_df (downsample_df ([1, 2, 3] : List ℕ) 2) 2
      = downsample_df ([1, 2, 3] : List ℕ) 2 :=
  C10_downsample_idempotent [1, 2, 3] 2 (by decide)

end HPC
